import Mathlib

/-!
Shallow embedding of `backend/server.js` (civic-issue reporting server):
the OTP issuance/verification state machine, the issue lifecycle manager
(create / status transition with append-only event log), the attachment
linker, and the `toE164` phone-normalization utility.

Conventions of the embedding:
- Timestamps are milliseconds since epoch, as `Int`
  (JavaScript `Date.getTime()` values).
- JavaScript values appearing in validation checks are modelled by
  `JsValue`; JavaScript numbers by `JsNumber`, which separates finite
  values from `NaN` and the infinities so that `typeof x === "number"`
  (true for all of them) and finiteness can be told apart.
- The persistent store is modelled as total functions from keys to
  `Option` rows; the `Event` table is a list kept newest-first (the
  head is the most recently appended event).
- External collaborators (the messaging gateway, the random code
  generator, the clock) enter as explicit parameters of the operations.
-/

/-- JavaScript number: a finite value, NaN, or an infinity.
`typeof` reports "number" for all constructors. -/
inductive JsNumber
  | finite (q : ℚ)
  | nan
  | inf
  | negInf
deriving DecidableEq, Repr

/-- JavaScript value as far as the server's validation logic inspects one. -/
inductive JsValue
  | undef
  | nullv
  | boolean (b : Bool)
  | number (n : JsNumber)
  | string (s : String)
deriving DecidableEq, Repr

/-- JavaScript truthiness of a `JsValue`.
Falsy: undefined, null, false, 0, NaN, "". -/
def JsValue.truthy : JsValue → Bool
  | .undef => false
  | .nullv => false
  | .boolean b => b
  | .number (.finite q) => q ≠ 0
  | .number .nan => false
  | .number .inf => true
  | .number .negInf => true
  | .string s => s ≠ ""

/-- Whether `typeof v === "number"` holds, as checked by the issue
validation (`typeof coords.lat !== "number"`) and the attachment filter
(`typeof a.size === "number"`). NaN and the infinities pass this check. -/
def JsValue.isNumberType : JsValue → Bool
  | .number _ => true
  | _ => false

/-- One row of the `Otp` table (unique key: phone). -/
structure OtpRecord where
  code : String
  createdAt : Int
  expiresAt : Int
  attempts : Nat
deriving DecidableEq, Repr

/-- One row of the `Issue` table. `lat`/`lng` are stored as the `JsValue`s
taken from `coords` (validated to be of number type). -/
structure Issue where
  category : String
  description : String
  lat : JsValue
  lng : JsValue
  status : String
  creatorPhone : Option String
deriving DecidableEq, Repr

/-- One row of the append-only `Event` table. -/
structure Event where
  issueId : Nat
  status : String
  byPhone : Option String
deriving DecidableEq, Repr

/-- One row of the `Attachment` table; field values are the `JsValue`s the
client supplied. -/
structure AttachmentRow where
  issueId : Nat
  filename : JsValue
  mime : JsValue
  size : JsValue
deriving DecidableEq, Repr

/-- A client-supplied attachment reference: either a falsy array element
(dropped by the `a &&` guard) or an object with the three inspected
fields. -/
inductive AttachRef
  | nullish
  | obj (filename mime size : JsValue)
deriving DecidableEq, Repr

/-- The persistent state of the server: the four tables and the
autoincrement counter for issue ids. `events` is newest-first. -/
structure ServerState where
  otp : String → Option OtpRecord
  users : String → Option String
  issues : Nat → Option Issue
  events : List Event
  attachments : List AttachmentRow
  nextIssueId : Nat

/-- The empty database. -/
def initialState : ServerState where
  otp := fun _ => none
  users := fun _ => none
  issues := fun _ => none
  events := []
  attachments := []
  nextIssueId := 0

/-- Keyed upsert into a table modelled as a function. -/
def upsert {α : Type} (m : String → Option α) (k : String) (v : α) :
    String → Option α :=
  fun q => if q = k then some v else m q

/-- Keyed delete from a table modelled as a function. -/
def deleteKey {α : Type} (m : String → Option α) (k : String) :
    String → Option α :=
  fun q => if q = k then none else m q

/-- Result of `sendSms` as far as the handler inspects it:
`ok` (delivery reported success) and `dev` (local-echo mode). -/
structure SmsResult where
  ok : Bool
  dev : Bool
deriving DecidableEq, Repr

/-- Whether `s` starts with `p` (JavaScript `s.startsWith(p)`), computed
on the character list so that concrete instances reduce. -/
def strStarts (s p : String) : Bool :=
  s.data.take p.data.length == p.data

/-- Whitespace trimming of both ends (JavaScript `s.trim()`), computed
on the character list so that concrete instances reduce. -/
def strTrim (s : String) : String :=
  String.mk
    (((s.data.dropWhile Char.isWhitespace).reverse.dropWhile
        Char.isWhitespace).reverse)

/-- Drop the first `n` characters (JavaScript `s.slice(n)` for `n ≥ 0`). -/
def strDrop (s : String) (n : Nat) : String :=
  String.mk (s.data.drop n)

/-- Length in characters. -/
def strLen (s : String) : Nat :=
  s.data.length

/-- Strip every non-digit character, mirroring
`String(phone).replace(/\D/g, "")`. -/
def stripNonDigits (s : String) : String :=
  String.mk (s.data.filter Char.isDigit)

/-- Phone normalization for message delivery, mirroring `toE164` in
`server.js` branch for branch (the digit-length cases are tested before
the leading-"+" case, exactly as in the source). -/
def toE164 (phone : String) : String :=
  let digits := stripNonDigits phone
  if strLen digits = 10 then "+91" ++ digits
  else if strStarts digits "91" && strLen digits = 12 then "+" ++ digits
  else if strStarts digits "0" && strLen digits = 11 then
    "+91" ++ (strDrop digits 1)
  else if strStarts phone "+" then phone
  else "+" ++ digits

/-- Result of `POST /auth/otp/start`. -/
inductive OtpStartResult
  | ok
  | validationError
  | rateLimited (wait : Int)
  | deliveryError
deriving DecidableEq, Repr

/-- The wait hint shown on rate limiting:
`Math.ceil(45 - deltaSec)` where `deltaSec = deltaMs / 1000` exactly.
For integers, the real-number ceiling of `(45000 - deltaMs) / 1000`
equals the floor of `(45000 - deltaMs + 999) / 1000`. -/
def waitHint (deltaMs : Int) : Int :=
  (45000 - deltaMs + 999) / 1000

/-- The code-issuing tail of `POST /auth/otp/start` (everything after
the rate-limit guard): generate and upsert the record, then dispatch via
the gateway. The record is upserted before the gateway is called, so a
gateway hard failure (`!sent.ok && !sent.dev`) leaves it stored. -/
def otpStartIssue (st : ServerState) (phone : String) (now : Int)
    (fresh : String) (sms : SmsResult) : OtpStartResult × ServerState :=
  if !sms.ok && !sms.dev then
    (.deliveryError,
     { st with otp := upsert st.otp phone ⟨fresh, now, now + 5 * 60 * 1000, 0⟩ })
  else
    (.ok,
     { st with otp := upsert st.otp phone ⟨fresh, now, now + 5 * 60 * 1000, 0⟩ })

/-- Handler of `POST /auth/otp/start`. `fresh` is the 6-digit code the
handler draws, `sms` the gateway outcome for its dispatch. -/
def otpStart (st : ServerState) (rawPhone : String) (now : Int)
    (fresh : String) (sms : SmsResult) : OtpStartResult × ServerState :=
  if rawPhone = "" then (.validationError, st)
  else
    match st.otp (strTrim rawPhone) with
    | some existing =>
        if now - existing.createdAt < 45000 then
          (.rateLimited (waitHint (now - existing.createdAt)), st)
        else otpStartIssue st (strTrim rawPhone) now fresh sms
    | none => otpStartIssue st (strTrim rawPhone) now fresh sms

/-- Result of `POST /auth/otp/verify`. -/
inductive VerifyResult
  | ok (role : String)
  | validationError
  | notRequested
  | expired
  | tooManyAttempts
  | invalid
deriving DecidableEq, Repr

/-- Role derivation on successful verification, mirroring
`const role = phone === "8888888888" ? "admin" : "citizen"`. It depends
on the phone identity alone. -/
def verifyRole (phone : String) : String :=
  if phone = "8888888888" then "admin" else "citizen"

/-- Handler of `POST /auth/otp/verify`. On the matching branch the OTP
row is deleted, the role is derived from the phone alone, and the User
row is upserted with that role (overwriting any prior role). -/
def otpVerify (st : ServerState) (rawPhone rawCode : String) (now : Int) :
    VerifyResult × ServerState :=
  if rawPhone = "" ∨ rawCode = "" then (.validationError, st)
  else
    match st.otp (strTrim rawPhone) with
    | none => (.notRequested, st)
    | some row =>
        if row.expiresAt < now then (.expired, st)
        else if row.attempts ≥ 5 then (.tooManyAttempts, st)
        else if row.code ≠ strTrim rawCode then
          (.invalid,
           { st with
               otp := upsert st.otp (strTrim rawPhone)
                 { row with attempts := row.attempts + 1 } })
        else
          (.ok (verifyRole (strTrim rawPhone)),
           { st with
               otp := deleteKey st.otp (strTrim rawPhone)
               users := upsert st.users (strTrim rawPhone) (verifyRole (strTrim rawPhone)) })

/-- The `coords` object of an issue-creation request. -/
structure CoordsVal where
  lat : JsValue
  lng : JsValue
deriving DecidableEq, Repr

/-- Input validation of `POST /issues`:
`!category || !coords || typeof coords.lat !== "number" || typeof coords.lng !== "number"`
(negated: validation passes). `none` models a missing/falsy field. -/
def validCreate (category : Option String) (coords : Option CoordsVal) : Bool :=
  match category, coords with
  | some c, some v => c ≠ "" && v.lat.isNumberType && v.lng.isNumberType
  | _, _ => false

/-- The attachment filter predicate, mirroring
`a => a && a.filename && typeof a.size === "number" && a.mime`. -/
def keepAttach : AttachRef → Bool
  | .nullish => false
  | .obj f m s => f.truthy && s.isNumberType && m.truthy

/-- Row built from a kept reference (`keepAttach` is applied first;
the `nullish` case is unreachable after the filter). -/
def attachRow (issueId : Nat) : AttachRef → AttachmentRow
  | .nullish => ⟨issueId, .undef, .undef, .undef⟩
  | .obj f m s => ⟨issueId, f, m, s⟩

/-- Result of `POST /issues`. -/
inductive CreateResult
  | ok (id : Nat)
  | validationError
deriving DecidableEq, Repr

/-- Preserving upsert used by `POST /issues` for the acting user:
`update: {}` keeps an existing row unchanged, `create` uses the token
role. -/
def upsertUserPreserving (m : String → Option String) (phone role : String) :
    String → Option String :=
  match m phone with
  | some _ => m
  | none => upsert m phone role

/-- The post-validation body of `POST /issues`: upsert the acting user
(role preserved if present), insert the issue with status "Created",
persist the well-formed attachment references, append one Event with
status "Created". -/
def createIssueGo (st : ServerState) (cat : String) (description : String)
    (cv : CoordsVal) (attachments : List AttachRef)
    (userPhone : Option String) (tokenRole : String) :
    CreateResult × ServerState :=
  (.ok st.nextIssueId,
   { st with
       users :=
         match userPhone with
         | some p => upsertUserPreserving st.users p tokenRole
         | none => st.users
       issues := fun i =>
         if i = st.nextIssueId then
           some ⟨cat, description, cv.lat, cv.lng, "Created", userPhone⟩
         else st.issues i
       events := ⟨st.nextIssueId, "Created", userPhone⟩ :: st.events
       attachments :=
         st.attachments ++ (attachments.filter keepAttach).map (attachRow st.nextIssueId)
       nextIssueId := st.nextIssueId + 1 })

/-- Handler of `POST /issues`: reject when `validCreate` fails, otherwise
run the creation body. The inner wildcard is unreachable because
`validCreate` forces both fields present. -/
def createIssue (st : ServerState) (category : Option String)
    (description : String) (coords : Option CoordsVal)
    (attachments : List AttachRef) (userPhone : Option String)
    (tokenRole : String) : CreateResult × ServerState :=
  if validCreate category coords then
    match category, coords with
    | some cat, some cv =>
        createIssueGo st cat description cv attachments userPhone tokenRole
    | _, _ => (.validationError, st)
  else (.validationError, st)

/-- Result of `POST /issues/:id/status`. -/
inductive TransitionResult
  | ok (status : String)
  | notFound
deriving DecidableEq, Repr

/-- Handler of `POST /issues/:id/status`: the body's `status` field
defaults to "Assigned" when absent (`const { status = "Assigned" }`);
no further validation of the new status is performed. -/
def transitionStatus (st : ServerState) (id : Nat)
    (statusField : Option String) (actor : Option String) :
    TransitionResult × ServerState :=
  match st.issues id with
  | none => (.notFound, st)
  | some issue =>
      (.ok (statusField.getD "Assigned"),
       { st with
           issues := fun i =>
             if i = id then some { issue with status := statusField.getD "Assigned" }
             else st.issues i
           events := ⟨id, statusField.getD "Assigned", actor⟩ :: st.events })

/-- The status carried by the most recently appended event for issue `i`
(events are newest-first, so this is the head of the filtered list). -/
def recentEventStatus (st : ServerState) (i : Nat) : Option String :=
  ((st.events.filter (fun e => e.issueId = i)).map Event.status).head?

/-- The load-bearing invariant: every stored issue's status field equals
the status of the most recently appended event for that issue. -/
def statusInvariant (st : ServerState) : Prop :=
  ∀ i issue, st.issues i = some issue →
    recentEventStatus st i = some issue.status

/-! ## Theorems -/

/-- C7 counterexample: the raw phone string "+1234567890" begins with
"+", yet `toE164` does not return it unchanged — its digit-stripped form
has exactly 10 digits, so the length-10 branch fires first and prefixes
"+91". -/
theorem toE164_plus_not_passthrough :
    strStarts "+1234567890" "+" = true ∧
    toE164 "+1234567890" = "+911234567890" ∧
    toE164 "+1234567890" ≠ "+1234567890" := by
  refine ⟨by decide, by decide, by decide⟩

/-- C7 amended: a raw phone string beginning with "+" passes through
`toE164` unchanged provided its digit-stripped form does not trigger one
of the three digit-shape branches tested first: exactly 10 digits;
exactly 12 digits starting with "91"; exactly 11 digits starting
with "0". -/
theorem toE164_plus_passthrough (phone : String)
    (hplus : strStarts phone "+" = true)
    (h10 : strLen (stripNonDigits phone) ≠ 10)
    (h12 : ¬(strStarts (stripNonDigits phone) "91" = true ∧
             strLen (stripNonDigits phone) = 12))
    (h11 : ¬(strStarts (stripNonDigits phone) "0" = true ∧
             strLen (stripNonDigits phone) = 11)) :
    toE164 phone = phone := by
  unfold toE164
  simp only [Bool.and_eq_true, decide_eq_true_eq]
  rw [if_neg h10, if_neg h12, if_neg h11, if_pos hplus]

/-- Witness for the amended C7: "+12345" has 5 digits and is returned
unchanged. -/
theorem toE164_plus_passthrough_witness : toE164 "+12345" = "+12345" :=
  toE164_plus_passthrough "+12345" (by decide) (by decide) (by decide) (by decide)

/-- Helper: the rate-limited branch of `otpStart`, in equation form. -/
theorem otpStart_limited_eq (st : ServerState) (rawPhone : String)
    (now : Int) (fresh : String) (sms : SmsResult) (r : OtpRecord)
    (hp : rawPhone ≠ "")
    (hr : st.otp (strTrim rawPhone) = some r)
    (h45 : now - r.createdAt < 45000) :
    otpStart st rawPhone now fresh sms =
      (.rateLimited (waitHint (now - r.createdAt)), st) := by
  unfold otpStart
  rw [if_neg hp, hr]
  simp only [if_pos h45]

/-- Helper: when no rate limit applies, `otpStart` proceeds to the
code-issuing tail. -/
theorem otpStart_proceeds (st : ServerState) (rawPhone : String)
    (now : Int) (fresh : String) (sms : SmsResult)
    (hp : rawPhone ≠ "")
    (hfree : ∀ r, st.otp (strTrim rawPhone) = some r →
      45000 ≤ now - r.createdAt) :
    otpStart st rawPhone now fresh sms =
      otpStartIssue st (strTrim rawPhone) now fresh sms := by
  unfold otpStart
  rw [if_neg hp]
  cases hcase : st.otp (strTrim rawPhone) with
  | none => rfl
  | some r =>
      simp only [if_neg (not_lt.mpr (hfree r hcase))]

/-- C2: with a stored OTP record for the (trimmed) identity created less
than 45 seconds before `now`, `otpStart` fails rate-limited, the wait
hint is the remaining time rounded up to whole seconds and lies in
(0, 45], and the state — in particular the stored record — is unchanged:
no new code is generated or stored. -/
theorem otpStart_rate_limited (st : ServerState) (rawPhone : String)
    (now : Int) (fresh : String) (sms : SmsResult) (r : OtpRecord)
    (hp : rawPhone ≠ "")
    (hr : st.otp (strTrim rawPhone) = some r)
    (h0 : r.createdAt ≤ now)
    (h45 : now - r.createdAt < 45000) :
    otpStart st rawPhone now fresh sms =
      (.rateLimited (waitHint (now - r.createdAt)), st) ∧
    0 < waitHint (now - r.createdAt) ∧ waitHint (now - r.createdAt) ≤ 45 := by
  refine ⟨otpStart_limited_eq st rawPhone now fresh sms r hp hr h45, ?_, ?_⟩
  · unfold waitHint; omega
  · unfold waitHint; omega

/-- Witness state: one OTP record for "9999999999", created at time 0
with code "123456", expiring at 300000, no attempts yet. -/
def stOneOtp : ServerState :=
  { initialState with
      otp := fun q => if q = "9999999999" then some ⟨"123456", 0, 300000, 0⟩
                      else none }

/-- Witness for C2: a second request 1000 ms after issuance is rate
limited with a 44-second wait hint. -/
theorem otpStart_rate_limited_witness :
    otpStart stOneOtp "9999999999" 1000 "654321" ⟨true, true⟩ =
      (.rateLimited (waitHint 1000), stOneOtp) ∧
    0 < waitHint 1000 ∧ waitHint 1000 ≤ 45 :=
  otpStart_rate_limited stOneOtp "9999999999" 1000 "654321" ⟨true, true⟩
    ⟨"123456", 0, 300000, 0⟩ (by decide) (by decide) (by decide) (by decide)

/-- C3: an unexpired record whose attempts counter has reached the
ceiling makes `otpVerify` fail with TooManyAttempts for every submitted
code — the correct one included — leaving the state (hence the record,
its attempts counter, and everything else) unchanged. Since the record
is unchanged, every further verification of it fails the same way; only
`otpStart`, which resets attempts to 0, can recover the identity. -/
theorem otpVerify_too_many_attempts (st : ServerState)
    (rawPhone rawCode : String) (now : Int) (row : OtpRecord)
    (hp : rawPhone ≠ "") (hc : rawCode ≠ "")
    (hr : st.otp (strTrim rawPhone) = some row)
    (hexp : ¬ row.expiresAt < now)
    (hat : row.attempts ≥ 5) :
    otpVerify st rawPhone rawCode now = (.tooManyAttempts, st) := by
  unfold otpVerify
  rw [if_neg (not_or.mpr ⟨hp, hc⟩), hr]
  simp only [if_neg hexp, if_pos hat]

/-- Witness state for the attempt ceiling: a live record for
"7777777777" with attempts already at 5. -/
def stMaxAttempts : ServerState :=
  { initialState with
      otp := fun q => if q = "7777777777" then some ⟨"123456", 0, 300000, 5⟩
                      else none }

/-- Witness for C3: even the correct code "123456" is rejected with
TooManyAttempts and the state is untouched. -/
theorem otpVerify_too_many_attempts_witness :
    otpVerify stMaxAttempts "7777777777" "123456" 10 =
      (.tooManyAttempts, stMaxAttempts) :=
  otpVerify_too_many_attempts stMaxAttempts "7777777777" "123456" 10
    ⟨"123456", 0, 300000, 5⟩ (by decide) (by decide) (by decide) (by decide)
    (by decide)

/-- Helper: the success branch of `otpVerify`, in equation form: the OTP
row is deleted and the User row upserted with the derived role. -/
theorem otpVerify_success_eq (st : ServerState) (rawPhone rawCode : String)
    (now : Int) (row : OtpRecord)
    (hp : rawPhone ≠ "") (hc : rawCode ≠ "")
    (hr : st.otp (strTrim rawPhone) = some row)
    (hexp : ¬ row.expiresAt < now)
    (hat : ¬ row.attempts ≥ 5)
    (hcode : row.code = strTrim rawCode) :
    otpVerify st rawPhone rawCode now =
      (.ok (verifyRole (strTrim rawPhone)),
       { st with
           otp := deleteKey st.otp (strTrim rawPhone)
           users := upsert st.users (strTrim rawPhone)
             (verifyRole (strTrim rawPhone)) }) := by
  have hcc : ¬(row.code ≠ strTrim rawCode) := fun h => h hcode
  unfold otpVerify
  rw [if_neg (not_or.mpr ⟨hp, hc⟩), hr]
  simp only [if_neg hexp, if_neg hat, if_neg hcc]

/-- C4: a successful `otpVerify` (record present, unexpired, attempts
below 5, code matching) deletes the OTP record, so the table holds
nothing for the identity afterwards, and an immediately following
`otpVerify` with the same identity and code — at any time — fails with
NotRequested: a consumed code can never be replayed. -/
theorem otpVerify_consumed_no_replay (st : ServerState)
    (rawPhone rawCode : String) (now : Int) (row : OtpRecord)
    (hp : rawPhone ≠ "") (hc : rawCode ≠ "")
    (hr : st.otp (strTrim rawPhone) = some row)
    (hexp : ¬ row.expiresAt < now)
    (hat : ¬ row.attempts ≥ 5)
    (hcode : row.code = strTrim rawCode) :
    (otpVerify st rawPhone rawCode now).1 =
      .ok (verifyRole (strTrim rawPhone)) ∧
    (otpVerify st rawPhone rawCode now).2.otp (strTrim rawPhone) = none ∧
    ∀ now₂ : Int,
      (otpVerify (otpVerify st rawPhone rawCode now).2 rawPhone rawCode now₂).1 =
        .notRequested := by
  have hres := otpVerify_success_eq st rawPhone rawCode now row hp hc hr hexp hat hcode
  refine ⟨by rw [hres], by rw [hres]; simp [deleteKey], ?_⟩
  intro now₂
  rw [hres]
  unfold otpVerify
  rw [if_neg (not_or.mpr ⟨hp, hc⟩)]
  have hnone :
      ({ st with
           otp := deleteKey st.otp (strTrim rawPhone)
           users := upsert st.users (strTrim rawPhone)
             (verifyRole (strTrim rawPhone)) } : ServerState).otp
        (strTrim rawPhone) = none := by
    simp [deleteKey]
  rw [hnone]

/-- Witness for C4: verifying "123456" for "9999999999" succeeds, the
record is gone, and replaying the same code immediately afterwards
fails with NotRequested. -/
theorem otpVerify_consumed_no_replay_witness :
    (otpVerify stOneOtp "9999999999" "123456" 5).1 =
      .ok (verifyRole (strTrim "9999999999")) ∧
    (otpVerify stOneOtp "9999999999" "123456" 5).2.otp
      (strTrim "9999999999") = none ∧
    (otpVerify (otpVerify stOneOtp "9999999999" "123456" 5).2 "9999999999"
      "123456" 6).1 = .notRequested :=
  ⟨(otpVerify_consumed_no_replay stOneOtp "9999999999" "123456" 5
      ⟨"123456", 0, 300000, 0⟩ (by decide) (by decide) (by decide) (by decide)
      (by decide) (by decide)).1,
   (otpVerify_consumed_no_replay stOneOtp "9999999999" "123456" 5
      ⟨"123456", 0, 300000, 0⟩ (by decide) (by decide) (by decide) (by decide)
      (by decide) (by decide)).2.1,
   (otpVerify_consumed_no_replay stOneOtp "9999999999" "123456" 5
      ⟨"123456", 0, 300000, 0⟩ (by decide) (by decide) (by decide) (by decide)
      (by decide) (by decide)).2.2 6⟩

/-- C9: on every successful `otpVerify` the User row upserted for the
(trimmed) identity carries role "admin" exactly when the identity is the
fixed sentinel "8888888888", and "citizen" otherwise. The role is a
function of the identity alone — `otpVerify` takes no role input from
the client. -/
theorem otpVerify_role_from_identity (st : ServerState)
    (rawPhone rawCode : String) (now : Int) (row : OtpRecord)
    (hp : rawPhone ≠ "") (hc : rawCode ≠ "")
    (hr : st.otp (strTrim rawPhone) = some row)
    (hexp : ¬ row.expiresAt < now)
    (hat : ¬ row.attempts ≥ 5)
    (hcode : row.code = strTrim rawCode) :
    (otpVerify st rawPhone rawCode now).1 =
      .ok (if strTrim rawPhone = "8888888888" then "admin" else "citizen") ∧
    (otpVerify st rawPhone rawCode now).2.users (strTrim rawPhone) =
      some (if strTrim rawPhone = "8888888888" then "admin" else "citizen") := by
  have hres := otpVerify_success_eq st rawPhone rawCode now row hp hc hr hexp hat hcode
  constructor
  · rw [hres]
    simp [verifyRole]
  · rw [hres]
    simp [upsert, verifyRole]

/-- Witness state for the sentinel identity: a live record for
"8888888888". -/
def stAdminOtp : ServerState :=
  { initialState with
      otp := fun q => if q = "8888888888" then some ⟨"123456", 0, 300000, 0⟩
                      else none }

/-- Witness for C9: verifying the sentinel identity yields role "admin"
and stores that role on the User row. -/
theorem otpVerify_role_from_identity_witness :
    (otpVerify stAdminOtp "8888888888" "123456" 5).1 =
      .ok (if strTrim "8888888888" = "8888888888" then "admin" else "citizen") ∧
    (otpVerify stAdminOtp "8888888888" "123456" 5).2.users
      (strTrim "8888888888") =
      some (if strTrim "8888888888" = "8888888888" then "admin" else "citizen") :=
  otpVerify_role_from_identity stAdminOtp "8888888888" "123456" 5
    ⟨"123456", 0, 300000, 0⟩ (by decide) (by decide) (by decide) (by decide)
    (by decide) (by decide)

/-- C5: when the gateway reports a hard failure (`ok = false` and not
local-echo, `dev = false`) and no rate limit applied, `otpStart` fails
with DeliveryError, yet the freshly generated record stays stored for
the identity (it is not rolled back), so any further `otpStart` within
45 seconds of the failed one is rate limited. -/
theorem otpStart_delivery_failure_keeps_record (st : ServerState)
    (rawPhone : String) (now : Int) (fresh : String) (sms : SmsResult)
    (hp : rawPhone ≠ "")
    (hfail : sms.ok = false) (hdev : sms.dev = false)
    (hfree : ∀ r, st.otp (strTrim rawPhone) = some r →
      45000 ≤ now - r.createdAt) :
    (otpStart st rawPhone now fresh sms).1 = .deliveryError ∧
    (otpStart st rawPhone now fresh sms).2.otp (strTrim rawPhone) =
      some ⟨fresh, now, now + 5 * 60 * 1000, 0⟩ ∧
    ∀ (now₂ : Int) (fresh₂ : String) (sms₂ : SmsResult),
      now₂ - now < 45000 →
      (otpStart (otpStart st rawPhone now fresh sms).2 rawPhone now₂ fresh₂
        sms₂).1 = .rateLimited (waitHint (now₂ - now)) := by
  have hres : otpStart st rawPhone now fresh sms =
      (.deliveryError,
       { st with
           otp := upsert st.otp (strTrim rawPhone)
             ⟨fresh, now, now + 5 * 60 * 1000, 0⟩ }) := by
    rw [otpStart_proceeds st rawPhone now fresh sms hp hfree]
    unfold otpStartIssue
    rw [hfail, hdev]
    simp
  refine ⟨by rw [hres], by rw [hres]; simp [upsert], ?_⟩
  intro now₂ fresh₂ sms₂ h45
  have hr₂ :
      ((otpStart st rawPhone now fresh sms).2).otp (strTrim rawPhone) =
        some ⟨fresh, now, now + 5 * 60 * 1000, 0⟩ := by
    rw [hres]; simp [upsert]
  rw [otpStart_limited_eq (otpStart st rawPhone now fresh sms).2 rawPhone now₂
    fresh₂ sms₂ ⟨fresh, now, now + 5 * 60 * 1000, 0⟩ hp hr₂ h45]

/-- Witness for C5: a first request for "9999999999" whose delivery hard
fails still stores the record, and a retry 1000 ms later is rate
limited. -/
theorem otpStart_delivery_failure_keeps_record_witness :
    (otpStart initialState "9999999999" 0 "123456" ⟨false, false⟩).1 =
      .deliveryError ∧
    (otpStart initialState "9999999999" 0 "123456" ⟨false, false⟩).2.otp
      (strTrim "9999999999") = some ⟨"123456", 0, 0 + 5 * 60 * 1000, 0⟩ ∧
    (otpStart (otpStart initialState "9999999999" 0 "123456"
      ⟨false, false⟩).2 "9999999999" 1000 "654321" ⟨true, true⟩).1 =
      .rateLimited (waitHint (1000 - 0)) :=
  ⟨(otpStart_delivery_failure_keeps_record initialState "9999999999" 0
      "123456" ⟨false, false⟩ (by decide) (by decide) (by decide)
      (fun r h => Option.noConfusion h)).1,
   (otpStart_delivery_failure_keeps_record initialState "9999999999" 0
      "123456" ⟨false, false⟩ (by decide) (by decide) (by decide)
      (fun r h => Option.noConfusion h)).2.1,
   (otpStart_delivery_failure_keeps_record initialState "9999999999" 0
      "123456" ⟨false, false⟩ (by decide) (by decide) (by decide)
      (fun r h => Option.noConfusion h)).2.2 1000 "654321" ⟨true, true⟩
      (by decide)⟩

/-- C6 counterexample: a CreateIssue call whose latitude is NaN — which
the claim says must fail with ValidationError and create nothing — in
fact passes validation (only `typeof === "number"` is checked, and NaN
is of number type) and creates the issue. -/
theorem createIssue_nan_accepted :
    (createIssue initialState (some "Pothole") ""
      (some ⟨.number .nan, .number (.finite 77)⟩) [] none "citizen").1 =
      .ok 0 ∧
    (createIssue initialState (some "Pothole") ""
      (some ⟨.number .nan, .number (.finite 77)⟩) [] none "citizen").2.issues 0 =
      some ⟨"Pothole", "", .number .nan, .number (.finite 77), "Created", none⟩ := by
  constructor
  · decide
  · decide

/-- C6 amended: CreateIssue fails with ValidationError — leaving the
state unchanged, so no issue is created — exactly when the category is
missing or empty, the coords are missing, or latitude or longitude is
not of JavaScript number type; otherwise validation passes and the issue
is created. Finiteness is NOT checked: NaN or infinite coordinates are
of number type and pass. -/
theorem createIssue_validation (st : ServerState) (category : Option String)
    (description : String) (coords : Option CoordsVal)
    (attachments : List AttachRef) (userPhone : Option String)
    (tokenRole : String) :
    (validCreate category coords = false →
      createIssue st category description coords attachments userPhone
        tokenRole = (.validationError, st)) ∧
    (validCreate category coords = true →
      (createIssue st category description coords attachments userPhone
        tokenRole).1 = .ok st.nextIssueId) := by
  constructor
  · intro h
    unfold createIssue
    rw [if_neg (by rw [h]; exact Bool.false_ne_true)]
  · intro h
    cases category with
    | none => simp [validCreate] at h
    | some cat =>
        cases coords with
        | none => simp [validCreate] at h
        | some cv =>
            unfold createIssue
            rw [if_pos h]
            rfl

/-- Witness for the amended C6: a missing category is rejected without
state change; a well-typed request is accepted. -/
theorem createIssue_validation_witness :
    createIssue initialState none "" none [] none "citizen" =
      (.validationError, initialState) ∧
    (createIssue initialState (some "Pothole") ""
      (some ⟨.number (.finite 12), .number (.finite 77)⟩) [] none
      "citizen").1 = .ok initialState.nextIssueId :=
  ⟨(createIssue_validation initialState none "" none [] none "citizen").1
      (by decide),
   (createIssue_validation initialState (some "Pothole") ""
      (some ⟨.number (.finite 12), .number (.finite 77)⟩) [] none
      "citizen").2 (by decide)⟩

/-- C10: a status-transition request on an existing issue whose body
omits the status field does not fail: the status defaults to "Assigned",
overwriting the issue and appending an Event with status "Assigned"; and
an explicitly supplied empty-string status is likewise accepted,
overwriting the status with "" — no non-emptiness check exists. -/
theorem transitionStatus_default_and_empty (st : ServerState) (id : Nat)
    (actor : Option String) (issue : Issue)
    (h : st.issues id = some issue) :
    (transitionStatus st id none actor).1 = .ok "Assigned" ∧
    (transitionStatus st id none actor).2.issues id =
      some { issue with status := "Assigned" } ∧
    (transitionStatus st id none actor).2.events =
      ⟨id, "Assigned", actor⟩ :: st.events ∧
    (transitionStatus st id (some "") actor).1 = .ok "" ∧
    (transitionStatus st id (some "") actor).2.issues id =
      some { issue with status := "" } ∧
    (transitionStatus st id (some "") actor).2.events =
      ⟨id, "", actor⟩ :: st.events := by
  unfold transitionStatus
  rw [h]
  simp [Option.getD]

/-- Witness state: one issue (id 0) with status "Created" and its
creation event. -/
def stOneIssue : ServerState :=
  { initialState with
      issues := fun i => if i = 0 then
          some ⟨"Pothole", "", .number (.finite 12), .number (.finite 77),
                "Created", none⟩
        else none
      events := [⟨0, "Created", none⟩]
      nextIssueId := 1 }

/-- Witness for C10: on `stOneIssue`, omitting the status yields
"Assigned" and the empty string is accepted as-is. -/
theorem transitionStatus_default_and_empty_witness :
    (transitionStatus stOneIssue 0 none none).1 = .ok "Assigned" ∧
    (transitionStatus stOneIssue 0 none none).2.issues 0 =
      some { (⟨"Pothole", "", .number (.finite 12), .number (.finite 77),
               "Created", none⟩ : Issue) with status := "Assigned" } ∧
    (transitionStatus stOneIssue 0 none none).2.events =
      ⟨0, "Assigned", none⟩ :: stOneIssue.events ∧
    (transitionStatus stOneIssue 0 (some "") none).1 = .ok "" ∧
    (transitionStatus stOneIssue 0 (some "") none).2.issues 0 =
      some { (⟨"Pothole", "", .number (.finite 12), .number (.finite 77),
               "Created", none⟩ : Issue) with status := "" } ∧
    (transitionStatus stOneIssue 0 (some "") none).2.events =
      ⟨0, "", none⟩ :: stOneIssue.events :=
  transitionStatus_default_and_empty stOneIssue 0 none
    ⟨"Pothole", "", .number (.finite 12), .number (.finite 77),
     "Created", none⟩ (by decide)

/-- The claim's well-formedness reading of an attachment reference: it
carries a non-empty filename, a MIME type, and a numeric size. -/
def wellFormedRef : AttachRef → Bool
  | .nullish => false
  | .obj f m s =>
      (match f with | .string fn => fn ≠ "" | _ => false) &&
      (match m with | .string mi => mi ≠ "" | _ => false) &&
      s.isNumberType

/-- References whose filename and mime fields are strings or absent —
the shape the upload API hands to clients. On these, JS truthiness of a
field coincides with being a non-empty string. -/
def stringShapedRef : AttachRef → Bool
  | .nullish => true
  | .obj f m _ =>
      (match f with | .string _ => true | .undef => true | _ => false) &&
      (match m with | .string _ => true | .undef => true | _ => false)

/-- On string-shaped references, the code's truthiness filter keeps
exactly the well-formed ones. -/
theorem keepAttach_eq_wellFormed (a : AttachRef)
    (h : stringShapedRef a = true) : keepAttach a = wellFormedRef a := by
  cases a with
  | nullish => rfl
  | obj f m s =>
      simp only [stringShapedRef, Bool.and_eq_true] at h
      obtain ⟨hf, hm⟩ := h
      cases f <;> cases m <;> simp_all [keepAttach, wellFormedRef,
        JsValue.truthy, Bool.and_assoc, Bool.and_comm, Bool.and_left_comm]

/-- C8: for a valid CreateIssue call whose attachment references all
have string-or-absent filename and mime fields, the call never fails —
malformed references included — and the Attachment rows persisted for
the new issue are exactly those built from the references carrying a
non-empty filename, a MIME type, and a numeric size; every other
reference is silently discarded. -/
theorem createIssue_attachment_linking (st : ServerState) (cat : String)
    (description : String) (cv : CoordsVal)
    (attachments : List AttachRef) (userPhone : Option String)
    (tokenRole : String)
    (hcat : cat ≠ "")
    (hlat : cv.lat.isNumberType = true) (hlng : cv.lng.isNumberType = true)
    (hshape : ∀ a ∈ attachments, stringShapedRef a = true) :
    (createIssue st (some cat) description (some cv) attachments userPhone
      tokenRole).1 = .ok st.nextIssueId ∧
    (createIssue st (some cat) description (some cv) attachments userPhone
      tokenRole).2.attachments =
      st.attachments ++
        (attachments.filter wellFormedRef).map (attachRow st.nextIssueId) := by
  have hv : validCreate (some cat) (some cv) = true := by
    simp [validCreate, hcat, hlat, hlng]
  have hfilter : attachments.filter keepAttach =
      attachments.filter wellFormedRef :=
    List.filter_congr (fun a ha => keepAttach_eq_wellFormed a (hshape a ha))
  unfold createIssue
  rw [if_pos hv]
  constructor
  · rfl
  · show st.attachments ++ (attachments.filter keepAttach).map _ = _
    rw [hfilter]

/-- Witness for C8: of three references — one well-formed, one null
element, one missing its filename — exactly the first is persisted, and
the call succeeds. -/
theorem createIssue_attachment_linking_witness :
    (createIssue initialState (some "Pothole") ""
      (some ⟨.number (.finite 12), .number (.finite 77)⟩)
      [.obj (.string "a.jpg") (.string "image/jpeg") (.number (.finite 123)),
       .nullish,
       .obj .undef (.string "image/png") (.number (.finite 1))]
      none "citizen").1 = .ok 0 ∧
    (createIssue initialState (some "Pothole") ""
      (some ⟨.number (.finite 12), .number (.finite 77)⟩)
      [.obj (.string "a.jpg") (.string "image/jpeg") (.number (.finite 123)),
       .nullish,
       .obj .undef (.string "image/png") (.number (.finite 1))]
      none "citizen").2.attachments =
      initialState.attachments ++
        (([.obj (.string "a.jpg") (.string "image/jpeg")
             (.number (.finite 123)),
           .nullish,
           .obj .undef (.string "image/png") (.number (.finite 1))] :
            List AttachRef).filter wellFormedRef).map (attachRow 0) :=
  createIssue_attachment_linking initialState "Pothole" ""
    ⟨.number (.finite 12), .number (.finite 77)⟩
    [.obj (.string "a.jpg") (.string "image/jpeg") (.number (.finite 123)),
     .nullish,
     .obj .undef (.string "image/png") (.number (.finite 1))]
    none "citizen" (by decide) (by decide) (by decide) (by decide)

/-- Helper: the creation body preserves the status/event-history
invariant — the new issue gets status "Created" and its "Created" event
is appended at the head, while other issues' event sequences are
untouched. -/
theorem statusInvariant_createIssueGo (st : ServerState)
    (cat description : String) (cv : CoordsVal)
    (attachments : List AttachRef) (userPhone : Option String)
    (tokenRole : String) (hinv : statusInvariant st) :
    statusInvariant
      (createIssueGo st cat description cv attachments userPhone
        tokenRole).2 := by
  have hissues : (createIssueGo st cat description cv attachments userPhone
      tokenRole).2.issues =
      fun i => if i = st.nextIssueId then
          some ⟨cat, description, cv.lat, cv.lng, "Created", userPhone⟩
        else st.issues i := rfl
  have hevents : (createIssueGo st cat description cv attachments userPhone
      tokenRole).2.events =
      ⟨st.nextIssueId, "Created", userPhone⟩ :: st.events := rfl
  intro i issue' hi'
  simp only [hissues] at hi'
  unfold recentEventStatus
  rw [hevents]
  by_cases hEq : i = st.nextIssueId
  · subst hEq
    rw [if_pos rfl] at hi'
    obtain rfl := Option.some.inj hi'
    simp [List.filter_cons]
  · rw [if_neg hEq] at hi'
    have hprev := hinv i issue' hi'
    unfold recentEventStatus at hprev
    have hne : ¬((⟨st.nextIssueId, "Created", userPhone⟩ : Event).issueId = i) :=
      fun h => hEq h.symm
    simpa [List.filter_cons, hne] using hprev

/-- Helper: a status transition preserves the status/event-history
invariant — the updated issue's new status equals the status of the
event appended at the head, other issues are untouched. -/
theorem statusInvariant_transitionStatus (st : ServerState) (id : Nat)
    (statusField : Option String) (actor : Option String)
    (hinv : statusInvariant st) :
    statusInvariant (transitionStatus st id statusField actor).2 := by
  cases hcase : st.issues id with
  | none =>
      have heq : (transitionStatus st id statusField actor).2 = st := by
        unfold transitionStatus
        rw [hcase]
      rw [heq]
      exact hinv
  | some issue =>
      have hissues : (transitionStatus st id statusField actor).2.issues =
          fun i => if i = id then
              some { issue with status := statusField.getD "Assigned" }
            else st.issues i := by
        unfold transitionStatus
        rw [hcase]
      have hevents : (transitionStatus st id statusField actor).2.events =
          ⟨id, statusField.getD "Assigned", actor⟩ :: st.events := by
        unfold transitionStatus
        rw [hcase]
      intro i issue' hi'
      simp only [hissues] at hi'
      unfold recentEventStatus
      rw [hevents]
      by_cases hEq : i = id
      · subst hEq
        rw [if_pos rfl] at hi'
        obtain rfl := Option.some.inj hi'
        simp [List.filter_cons]
      · rw [if_neg hEq] at hi'
        have hprev := hinv i issue' hi'
        unfold recentEventStatus at hprev
        have hne :
            ¬((⟨id, statusField.getD "Assigned", actor⟩ : Event).issueId = i) :=
          fun h => hEq h.symm
        simpa [List.filter_cons, hne] using hprev

/-- C1: in any state satisfying the invariant "every issue's status
field equals the status of its most recently appended event", every
completed core operation — CreateIssue (which writes status "Created"
and appends one "Created" event) and TransitionStatus (which overwrites
the status and appends an event with the same new status) — yields a
state that satisfies it again. -/
theorem status_matches_event_history (st : ServerState)
    (hinv : statusInvariant st) :
    (∀ category description coords attachments userPhone tokenRole,
      statusInvariant
        (createIssue st category description coords attachments userPhone
          tokenRole).2) ∧
    (∀ id statusField actor,
      statusInvariant (transitionStatus st id statusField actor).2) := by
  constructor
  · intro category description coords attachments userPhone tokenRole
    unfold createIssue
    by_cases hv : validCreate category coords = true
    · rw [if_pos hv]
      cases category with
      | none => simp [validCreate] at hv
      | some cat =>
          cases coords with
          | none => simp [validCreate] at hv
          | some cv =>
              exact statusInvariant_createIssueGo st cat description cv
                attachments userPhone tokenRole hinv
    · rw [if_neg hv]
      exact hinv
  · intro id statusField actor
    exact statusInvariant_transitionStatus st id statusField actor hinv

/-- Witness for C1: starting from the empty database (which satisfies
the invariant vacuously), creating an issue leaves its most recent event
status equal to "Created", the created issue's status. -/
theorem status_matches_event_history_witness :
    recentEventStatus
      (createIssue initialState (some "Pothole") ""
        (some ⟨.number (.finite 12), .number (.finite 77)⟩) [] none
        "citizen").2 0 = some "Created" :=
  (status_matches_event_history initialState
      (fun _ _ h => Option.noConfusion h)).1 (some "Pothole") ""
    (some ⟨.number (.finite 12), .number (.finite 77)⟩) [] none "citizen" 0
    ⟨"Pothole", "", .number (.finite 12), .number (.finite 77), "Created",
     none⟩ (by decide)
